import Mathlib

/-!
Verification of the star-history pipeline in `fetch_stars.py` and
`src/python/plot_stars.py` (repository harupy/fetch-stars).

The development shallowly embeds the data model and the operations the spec
talks about: the pagination loop of `fetch_stars`, the regex extraction of
`extract_last_page_num`, the pandas aggregation pipeline of `main`
(group by day / quarter, count, sort, cumulative sum), and the path helpers
`save_plotly_figure`, `replace_extension` and `add_suffix`. Fallible Python
steps (raised exceptions) are embedded as `Except String`.
-/

/-- A parsed `starred_at` timestamp, the result of `pd.to_datetime` on an
ISO-8601 string. Field order `(year, month, day, hour, minute, second)` gives
the derived `Ord` the chronological (lexicographic) order pandas uses when
sorting datetimes. -/
structure Timestamp where
  year : Nat
  month : Nat
  day : Nat
  hour : Nat
  minute : Nat
  second : Nat
deriving DecidableEq, Ord, Repr

/-- One stargazer record as built by `fetch_stars` line 73:
`{"starred_at": x["starred_at"]}`. -/
structure StarEvent where
  starred_at : Timestamp
deriving DecidableEq, Repr

/-- Embeds `df_[STARRED_AT].dt.floor("d")` (main line 137): the timestamp with
its time-of-day fields zeroed. -/
def Timestamp.floorDay (t : Timestamp) : Timestamp :=
  { t with hour := 0, minute := 0, second := 0 }

/-- Embeds `df[STARRED_AT].dt.quarter`: quarter 1 to 4 from the month. -/
def Timestamp.quarter (t : Timestamp) : Nat :=
  (t.month - 1) / 3 + 1

/-- Embeds `assign_quarter` (main lines 121 to 128): the string label
`"{year}-Q{quarter}"` derived from a timestamp. -/
def quarterLabel (t : Timestamp) : String :=
  toString t.year ++ "-Q" ++ toString t.quarter

/-- Boolean strict chronological order on timestamps, via the derived
lexicographic `Ord`; this is the order pandas sorts datetime keys by. -/
def Timestamp.ltb (a b : Timestamp) : Bool :=
  compare a b == Ordering.lt

/-- Boolean non-strict chronological order on timestamps. -/
def Timestamp.leb (a b : Timestamp) : Bool :=
  !(compare a b == Ordering.gt)

/-- Boolean strict lexicographic order on strings, the order pandas sorts
string keys (such as quarter labels) by. -/
def strLtb (a b : String) : Bool :=
  compare a b == Ordering.lt

/-- Boolean non-strict lexicographic order on strings. -/
def strLeb (a b : String) : Bool :=
  !(compare a b == Ordering.gt)

/-- One insertion step of the grouped count: bump the count of an existing
key, or insert a fresh key with count 1 at its sorted position. Together with
`groupCount` this embeds `groupby(key).size()` (pandas groups with
`sort=True`, so group keys come out ascending). -/
def insertKey {K : Type} [DecidableEq K] (lt : K → K → Bool) (k : K) :
    List (K × Nat) → List (K × Nat)
  | [] => [(k, 1)]
  | (k2, n) :: rest =>
    if k = k2 then (k2, n + 1) :: rest
    else if lt k k2 then (k, 1) :: (k2, n) :: rest
    else (k2, n) :: insertKey lt k rest

/-- Embeds `groupby(key).size().reset_index()` (main lines 137 to 139 and
149 to 151): the list of `(group key, group size)` rows, keys ascending. -/
def groupCount {K : Type} [DecidableEq K] (lt : K → K → Bool) (keys : List K) :
    List (K × Nat) :=
  keys.foldl (fun acc k => insertKey lt k acc) []

/-- Sorted insertion of one row by its key, used to embed `sort_values`. -/
def insertRow {K : Type} (le : K → K → Bool) (x : K × Nat) :
    List (K × Nat) → List (K × Nat)
  | [] => [x]
  | y :: ys => if le x.1 y.1 then x :: y :: ys else y :: insertRow le x ys

/-- Embeds `.sort_values(column)` (main lines 140 and 152): sort the rows
ascending by key. Group keys are distinct, so sort stability is immaterial. -/
def sortRows {K : Type} (le : K → K → Bool) (rows : List (K × Nat)) :
    List (K × Nat) :=
  rows.foldr (insertRow le) []

/-- Embeds `.assign(cumulative = count.cumsum())` (main lines 142 and 154):
extend each `(key, count)` row with the running total of the counts, carrying
the total accumulated so far in `tot`. -/
def cumsum {K : Type} (tot : Nat) : List (K × Nat) → List (K × Nat × Nat)
  | [] => []
  | (k, n) :: rest => (k, n, tot + n) :: cumsum (tot + n) rest

/-- Embeds `pd.DataFrame(stars)` followed by the column access
`df[STARRED_AT]` inside `df.assign(... pd.to_datetime(df[STARRED_AT]))`
(main lines 131 and 133). `pd.DataFrame([])` has no columns at all, so for an
empty event list the column access raises `KeyError`; otherwise it yields the
`starred_at` column. `pd.to_datetime` itself is the parse that produces the
`Timestamp` values and is embedded as the identity on them. -/
def starredAtColumn (stars : List StarEvent) : Except String (List Timestamp) :=
  match stars with
  | [] => Except.error "KeyError: starred_at"
  | _ => Except.ok (stars.map StarEvent.starred_at)

/-- The daily aggregation pipeline applied to the `starred_at` column
(main lines 136 to 143): floor to day, group and count, sort ascending by
day, cumulative sum. The `rename(columns = ...)` step only renames the count
column and has no structural effect. -/
def dailyAgg (col : List Timestamp) : List (Timestamp × Nat × Nat) :=
  cumsum 0 (sortRows Timestamp.leb (groupCount Timestamp.ltb (col.map Timestamp.floorDay)))

/-- The quarterly aggregation pipeline applied to the `starred_at` column
(main lines 147 to 155): label each event `"{year}-Q{quarter}"`, group and
count, sort ascending by label, cumulative sum. -/
def quarterlyAgg (col : List Timestamp) : List (String × Nat × Nat) :=
  cumsum 0 (sortRows strLeb (groupCount strLtb (col.map quarterLabel)))

/-- The `daily` series of `main` (lines 131 to 143) as a function of the
fetched event list: rows `(starred_at, star_count, cumulative_star_count)`,
or the `KeyError` raised when the event list is empty. -/
def dailySeries (stars : List StarEvent) : Except String (List (Timestamp × Nat × Nat)) :=
  (starredAtColumn stars).map dailyAgg

/-- The `quarterly` series of `main` (lines 131 to 133 and 147 to 155) as a
function of the fetched event list: rows
`(quarter, star_count, cumulative_star_count)`, or the `KeyError` raised when
the event list is empty. -/
def quarterlySeries (stars : List StarEvent) : Except String (List (String × Nat × Nat)) :=
  (starredAtColumn stars).map quarterlyAgg

/-- Parses a maximal leading run of decimal digits, returning the digits and
the remaining characters. Embeds what the regex atom matches greedily. -/
def takeDigits : List Char → List Char × List Char
  | [] => ([], [])
  | c :: rest =>
    if c.isDigit then
      let p := takeDigits rest
      (c :: p.1, p.2)
    else ([], c :: rest)

/-- Numeric value of a digit string, embedding Python `int` on the captured
group. -/
def digitsToNat (ds : List Char) : Nat :=
  ds.foldl (fun n c => 10 * n + (c.toNat - 48)) 0

/-- Attempts to match the regex `\?page=(\d+)>` at the start of the character
list, returning the captured integer. The digit run is maximal and must be
followed directly by the character that closes the match. -/
def pageNumAt (cs : List Char) : Option Nat :=
  match cs with
  | '?' :: 'p' :: 'a' :: 'g' :: 'e' :: '=' :: rest =>
    match takeDigits rest with
    | ([], _) => none
    | (ds, more) =>
      match more with
      | '>' :: _ => some (digitsToNat ds)
      | _ => none
  | _ => none

/-- Embeds `re.findall(r"\?page=(\d+)>", link_str)`: the captured integers of
every match, left to right. Matches cannot overlap (each starts at a `?` and
contains no other `?`), so trying every start position gives exactly the
non-overlapping matches `findall` returns. -/
def findPageNums : List Char → List Nat
  | [] => []
  | c :: rest =>
    match pageNumAt (c :: rest) with
    | some n => n :: findPageNums rest
    | none => findPageNums rest

/-- Embeds `extract_last_page_num` (lines 46 to 54):
`int(re.findall(r"\?page=(\d+)>", link_str)[-1])`. Indexing `[-1]` takes the
positionally last match and raises `IndexError` when there is no match. -/
def extract_last_page_num (link_str : String) : Except String Nat :=
  match (findPageNums link_str.data).getLast? with
  | some n => Except.ok n
  | none => Except.error "list index out of range"

/-- Embeds `range(1, last_page_num + 1)` in `fetch_stars` (line 67): the page
indices visited by the pagination loop, in iteration order. -/
def pageSequence (last_page_num : Nat) : List Nat :=
  List.range' 1 last_page_num

/-- Embeds the pagination loop of `fetch_stars` (lines 66 to 75): starting
from the empty list, extend with each page's records in iteration order.
`pages` gives the records the GET for each page index returns, in response
order; the rate-limit GET before each page only logs and is effect-free on
the result. -/
def fetch_stars_loop (pages : Nat → List StarEvent) (last_page_num : Nat) :
    List StarEvent :=
  (pageSequence last_page_num).foldl (fun stars p => stars ++ pages p) []

/-- Embeds `str.rfind(c)`: the greatest index holding `c`, or `-1`. -/
def rfindIdx (cs : List Char) (c : Char) : Int :=
  (List.range cs.length).foldl
    (fun acc i => if cs.get? i == some c then (Int.ofNat i) else acc) (-1)

/-- Embeds `os.path.splitext` (posix): split at the last dot of the final
path component, unless every character of that component before the last dot
is itself a dot (leading dots of a filename never begin an extension). -/
def splitext (p : String) : String × String :=
  let cs := p.data
  let sepIndex := rfindIdx cs '/'
  let dotIndex := rfindIdx cs '.'
  if sepIndex < dotIndex then
    let filenameIndex := (sepIndex + 1).toNat
    if (List.range' filenameIndex (dotIndex.toNat - filenameIndex)).all
        (fun k => cs.get? k == some '.') then
      (p, "")
    else
      (String.mk (cs.take dotIndex.toNat), String.mk (cs.drop dotIndex.toNat))
  else
    (p, "")

/-- Embeds Python `str.endswith`: the last characters of `s` are exactly
those of `post`. -/
def strEndsWith (s post : String) : Bool :=
  s.data.reverse.take post.data.length == post.data.reverse

/-- Embeds Python `str.startswith`: the first characters of `s` are exactly
those of `pre`. -/
def strStartsWith (s pre : String) : Bool :=
  s.data.take pre.data.length == pre.data

/-- Embeds `add_suffix` (lines 93 to 95): split off the extension and rebuild
as `f"{base}{sep}{suffix}{ext}"`. The separator parameter defaults to `"_"`
and no caller ever overrides it, so it is inlined here. -/
def add_suffix (path suffix : String) : String :=
  (splitext path).1 ++ "_" ++ suffix ++ (splitext path).2

/-- Embeds `replace_extension` (lines 85 to 90). When `ext` does not start
with a dot the Python code executes `raise` on a plain string, which itself
raises a `TypeError`; either way the call fails. Otherwise the result is the
base of the path with the new extension. -/
def replace_extension (path ext : String) : Except String String :=
  if !(strStartsWith ext ".") then
    Except.error "TypeError: exceptions must derive from BaseException"
  else
    Except.ok ((splitext path).1 ++ ext)

/-- Embeds `save_plotly_figure` (lines 78 to 82). A path not ending in
`.html` raises `ValueError` before `plotly.offline.plot` runs, so nothing is
written; otherwise the render writes exactly the requested file, returned
here as the list of files produced. -/
def save_plotly_figure (path : String) : Except String (List String) :=
  if strEndsWith path ".html" then Except.ok [path]
  else Except.error "ValueError: path must be an HTML file"

/-- Total of the count column of a grouped table. -/
def sumCounts {K : Type} (rows : List (K × Nat)) : Nat :=
  (rows.map Prod.snd).sum

/-- The event list of the end-to-end scenario: two stars on 2023-01-01 and
one on 2023-04-05. -/
def exStars : List StarEvent :=
  [⟨⟨2023, 1, 1, 0, 0, 0⟩⟩, ⟨⟨2023, 1, 1, 0, 0, 0⟩⟩, ⟨⟨2023, 4, 5, 0, 0, 0⟩⟩]

/-- The expected daily rows of the end-to-end scenario. -/
def exDaily : List (Timestamp × Nat × Nat) :=
  [(⟨2023, 1, 1, 0, 0, 0⟩, 2, 2), (⟨2023, 4, 5, 0, 0, 0⟩, 1, 3)]

/-- The expected quarterly rows of the end-to-end scenario. -/
def exQuarterly : List (String × Nat × Nat) :=
  [("2023-Q1", 2, 2), ("2023-Q2", 1, 3)]

/-- The link-header string of the docstring of `extract_last_page_num`
(lines 48 to 52), with the `rel="next"` link first and the `rel="last"` link
last, as GitHub sends it. -/
def docLinkStr : String :=
  "<https://api.github.com/repositories/12345/stargazers?page=2>; rel=\"next\", <https://api.github.com/repositories/12345/stargazers?page=231>; rel=\"last\""

/-- The same two links in the opposite order: the `rel="last"` link (page
231) first and the `rel="next"` link (page 2) last. -/
def swappedLinkStr : String :=
  "<https://api.github.com/repositories/12345/stargazers?page=231>; rel=\"last\", <https://api.github.com/repositories/12345/stargazers?page=2>; rel=\"next\""

/-- A link-header string with no `page=` parameter at all. -/
def noPageLinkStr : String :=
  "<https://api.github.com/repositories/12345/stargazers>; rel=\"last\""

@[simp]
theorem sumCounts_nil {K : Type} : sumCounts ([] : List (K × Nat)) = 0 := rfl

@[simp]
theorem sumCounts_cons {K : Type} (x : K × Nat) (l : List (K × Nat)) :
    sumCounts (x :: l) = x.2 + sumCounts l := by
  simp [sumCounts]

theorem insertKey_sumCounts {K : Type} [DecidableEq K] (lt : K → K → Bool) (k : K)
    (l : List (K × Nat)) : sumCounts (insertKey lt k l) = sumCounts l + 1 := by
  induction l with
  | nil => simp [insertKey]
  | cons hd tl ih =>
    obtain ⟨k2, n⟩ := hd
    simp only [insertKey]
    split_ifs with h1 h2
    · simp; omega
    · simp; omega
    · simp [ih]; omega

theorem insertKey_ne_nil {K : Type} [DecidableEq K] (lt : K → K → Bool) (k : K)
    (l : List (K × Nat)) : insertKey lt k l ≠ [] := by
  cases l with
  | nil => simp [insertKey]
  | cons hd tl =>
    obtain ⟨k2, n⟩ := hd
    simp only [insertKey]
    split_ifs <;> simp

theorem foldl_insertKey_sumCounts {K : Type} [DecidableEq K] (lt : K → K → Bool)
    (keys : List K) : ∀ acc : List (K × Nat),
    sumCounts (keys.foldl (fun acc k => insertKey lt k acc) acc) =
      sumCounts acc + keys.length := by
  induction keys with
  | nil => intro acc; simp
  | cons k ks ih =>
    intro acc
    rw [List.foldl_cons, ih, insertKey_sumCounts]
    simp; omega

theorem foldl_insertKey_ne_nil {K : Type} [DecidableEq K] (lt : K → K → Bool)
    (keys : List K) : ∀ acc : List (K × Nat), acc ≠ [] →
    keys.foldl (fun acc k => insertKey lt k acc) acc ≠ [] := by
  induction keys with
  | nil => intro acc h; simpa using h
  | cons k ks ih =>
    intro acc _
    rw [List.foldl_cons]
    exact ih _ (insertKey_ne_nil lt k acc)

theorem groupCount_sumCounts {K : Type} [DecidableEq K] (lt : K → K → Bool)
    (keys : List K) : sumCounts (groupCount lt keys) = keys.length := by
  unfold groupCount
  rw [foldl_insertKey_sumCounts]
  simp

theorem groupCount_ne_nil {K : Type} [DecidableEq K] (lt : K → K → Bool)
    (keys : List K) (h : keys ≠ []) : groupCount lt keys ≠ [] := by
  cases keys with
  | nil => exact absurd rfl h
  | cons k ks =>
    unfold groupCount
    rw [List.foldl_cons]
    exact foldl_insertKey_ne_nil lt ks _ (insertKey_ne_nil lt k [])

theorem insertRow_sumCounts {K : Type} (le : K → K → Bool) (x : K × Nat)
    (l : List (K × Nat)) : sumCounts (insertRow le x l) = sumCounts l + x.2 := by
  induction l with
  | nil => simp [insertRow]
  | cons y ys ih =>
    simp only [insertRow]
    split_ifs
    · simp; omega
    · simp [ih]; omega

theorem sortRows_sumCounts {K : Type} (le : K → K → Bool) (rows : List (K × Nat)) :
    sumCounts (sortRows le rows) = sumCounts rows := by
  induction rows with
  | nil => rfl
  | cons x xs ih =>
    simp only [sortRows, List.foldr_cons] at ih ⊢
    rw [insertRow_sumCounts, ih]
    simp; omega

theorem insertRow_length {K : Type} (le : K → K → Bool) (x : K × Nat)
    (l : List (K × Nat)) : (insertRow le x l).length = l.length + 1 := by
  induction l with
  | nil => rfl
  | cons y ys ih =>
    simp only [insertRow]
    split_ifs
    · simp
    · simp [ih]

theorem sortRows_ne_nil {K : Type} (le : K → K → Bool) (rows : List (K × Nat))
    (h : rows ≠ []) : sortRows le rows ≠ [] := by
  cases rows with
  | nil => exact absurd rfl h
  | cons x xs =>
    simp only [sortRows, List.foldr_cons]
    intro hnil
    have := insertRow_length le x (xs.foldr (insertRow le) [])
    rw [hnil] at this
    simp at this

theorem cumsum_counts_sum {K : Type} (l : List (K × Nat)) : ∀ tot : Nat,
    ((cumsum tot l).map (fun r => r.2.1)).sum = sumCounts l := by
  induction l with
  | nil => intro tot; rfl
  | cons hd tl ih =>
    intro tot
    obtain ⟨k, n⟩ := hd
    simp only [cumsum, List.map_cons, List.sum_cons, sumCounts_cons, ih]

theorem cumsum_cum_getLast {K : Type} : ∀ (l : List (K × Nat)) (tot : Nat), l ≠ [] →
    ((cumsum tot l).map (fun r => r.2.2)).getLast? = some (tot + sumCounts l)
  | [], _, h => absurd rfl h
  | [(k, n)], tot, _ => by simp [cumsum]
  | (k, n) :: (k2, n2) :: rest, tot, _ => by
    have ih := cumsum_cum_getLast ((k2, n2) :: rest) (tot + n) (by simp)
    simp only [cumsum, List.map_cons] at ih ⊢
    rw [List.getLast?_cons_cons, ih]
    simp only [Option.some.injEq, sumCounts_cons]
    omega

theorem cumsum_cum_head_le {K : Type} : ∀ (l : List (K × Nat)) (tot y : Nat),
    ((cumsum tot l).map (fun r => r.2.2)).head? = some y → tot ≤ y
  | [], _, _ => by simp [cumsum]
  | (k, n) :: rest, tot, y => by
    simp only [cumsum, List.map_cons, List.head?_cons, Option.some.injEq]
    intro h
    omega

theorem cumsum_cum_chain {K : Type} : ∀ (l : List (K × Nat)) (tot : Nat),
    List.Chain' (· ≤ ·) ((cumsum tot l).map (fun r => r.2.2))
  | [], tot => by simp [cumsum]
  | (k, n) :: rest, tot => by
    simp only [cumsum, List.map_cons]
    rw [List.chain'_cons']
    refine ⟨fun y hy => ?_, cumsum_cum_chain rest (tot + n)⟩
    have hle := cumsum_cum_head_le rest (tot + n) y (Option.mem_def.mp hy)
    omega

theorem cumsum_cum_pairwise {K : Type} (l : List (K × Nat)) (tot : Nat) :
    List.Pairwise (· ≤ ·) ((cumsum tot l).map (fun r => r.2.2)) :=
  List.chain'_iff_pairwise.mp (cumsum_cum_chain l tot)

theorem agg_counts_sum {K : Type} [DecidableEq K] (lt le : K → K → Bool)
    (keys : List K) :
    ((cumsum 0 (sortRows le (groupCount lt keys))).map (fun r => r.2.1)).sum =
      keys.length := by
  rw [cumsum_counts_sum, sortRows_sumCounts, groupCount_sumCounts]

theorem agg_cum_getLast {K : Type} [DecidableEq K] (lt le : K → K → Bool)
    (keys : List K) (hne : keys ≠ []) :
    ((cumsum 0 (sortRows le (groupCount lt keys))).map (fun r => r.2.2)).getLast? =
      some keys.length := by
  rw [cumsum_cum_getLast _ _ (sortRows_ne_nil le _ (groupCount_ne_nil lt keys hne)),
    sortRows_sumCounts, groupCount_sumCounts]
  simp

theorem dailySeries_ok {stars : List StarEvent} {drows : List (Timestamp × Nat × Nat)}
    (h : dailySeries stars = Except.ok drows) :
    stars ≠ [] ∧ drows = dailyAgg (stars.map StarEvent.starred_at) := by
  cases stars with
  | nil => simp [dailySeries, starredAtColumn, Except.map] at h
  | cons s ss =>
    refine ⟨by simp, ?_⟩
    simp only [dailySeries, starredAtColumn, Except.map] at h
    exact (Except.ok.inj h).symm

theorem quarterlySeries_ok {stars : List StarEvent} {qrows : List (String × Nat × Nat)}
    (h : quarterlySeries stars = Except.ok qrows) :
    stars ≠ [] ∧ qrows = quarterlyAgg (stars.map StarEvent.starred_at) := by
  cases stars with
  | nil => simp [quarterlySeries, starredAtColumn, Except.map] at h
  | cons s ss =>
    refine ⟨by simp, ?_⟩
    simp only [quarterlySeries, starredAtColumn, Except.map] at h
    exact (Except.ok.inj h).symm

theorem foldl_append_flatten {α β : Type} (f : α → List β) (l : List α) :
    ∀ acc : List β,
    l.foldl (fun acc p => acc ++ f p) acc = acc ++ (l.map f).flatten := by
  induction l with
  | nil => intro acc; simp
  | cons x xs ih => intro acc; simp [ih, List.append_assoc]

/-- Claim C1: for every input event list, in each of the two aggregated
series the `cumulative_star_count` column is monotonically non-decreasing
across the rows in sorted order, and the cumulative value of the last row
equals the total number of input events. -/
theorem c1_cumulative_monotone_and_total (stars : List StarEvent)
    (drows : List (Timestamp × Nat × Nat)) (qrows : List (String × Nat × Nat))
    (hd : dailySeries stars = Except.ok drows)
    (hq : quarterlySeries stars = Except.ok qrows) :
    List.Pairwise (· ≤ ·) (drows.map (fun r => r.2.2)) ∧
    List.Pairwise (· ≤ ·) (qrows.map (fun r => r.2.2)) ∧
    (drows.map (fun r => r.2.2)).getLast? = some stars.length ∧
    (qrows.map (fun r => r.2.2)).getLast? = some stars.length := by
  obtain ⟨hne, hdrows⟩ := dailySeries_ok hd
  obtain ⟨-, hqrows⟩ := quarterlySeries_ok hq
  subst hdrows
  subst hqrows
  have hdkeys : (stars.map StarEvent.starred_at).map Timestamp.floorDay ≠ [] := by
    cases stars with
    | nil => exact absurd rfl hne
    | cons s ss => simp
  have hqkeys : (stars.map StarEvent.starred_at).map quarterLabel ≠ [] := by
    cases stars with
    | nil => exact absurd rfl hne
    | cons s ss => simp
  refine ⟨cumsum_cum_pairwise _ 0, cumsum_cum_pairwise _ 0, ?_, ?_⟩
  · unfold dailyAgg
    rw [agg_cum_getLast Timestamp.ltb Timestamp.leb _ hdkeys]
    simp
  · unfold quarterlyAgg
    rw [agg_cum_getLast strLtb strLeb _ hqkeys]
    simp

/-- Witness for C1: the end-to-end event list satisfies both hypotheses, and
the conclusion holds for its concrete output rows. -/
theorem c1_witness :
    dailySeries exStars = Except.ok exDaily ∧
    quarterlySeries exStars = Except.ok exQuarterly ∧
    (List.Pairwise (· ≤ ·) (exDaily.map (fun r => r.2.2)) ∧
      List.Pairwise (· ≤ ·) (exQuarterly.map (fun r => r.2.2)) ∧
      (exDaily.map (fun r => r.2.2)).getLast? = some exStars.length ∧
      (exQuarterly.map (fun r => r.2.2)).getLast? = some exStars.length) :=
  ⟨rfl, rfl, c1_cumulative_monotone_and_total exStars exDaily exQuarterly rfl rfl⟩

/-- Claim C2: for every input event list, the sum of the `star_count` column
of each aggregated series equals the number of input events: grouping then
counting neither drops nor double-counts any event. -/
theorem c2_count_sum_preserved (stars : List StarEvent)
    (drows : List (Timestamp × Nat × Nat)) (qrows : List (String × Nat × Nat))
    (hd : dailySeries stars = Except.ok drows)
    (hq : quarterlySeries stars = Except.ok qrows) :
    (drows.map (fun r => r.2.1)).sum = stars.length ∧
    (qrows.map (fun r => r.2.1)).sum = stars.length := by
  obtain ⟨-, hdrows⟩ := dailySeries_ok hd
  obtain ⟨-, hqrows⟩ := quarterlySeries_ok hq
  subst hdrows
  subst hqrows
  constructor
  · unfold dailyAgg
    rw [agg_counts_sum]
    simp
  · unfold quarterlyAgg
    rw [agg_counts_sum]
    simp

/-- Witness for C2: both hypotheses hold for the end-to-end event list, and
the count sums there equal the three input events. -/
theorem c2_witness :
    dailySeries exStars = Except.ok exDaily ∧
    quarterlySeries exStars = Except.ok exQuarterly ∧
    ((exDaily.map (fun r => r.2.1)).sum = exStars.length ∧
      (exQuarterly.map (fun r => r.2.1)).sum = exStars.length) :=
  ⟨rfl, rfl, c2_count_sum_preserved exStars exDaily exQuarterly rfl rfl⟩

/-- Counterexample to claim C3: for the empty event list the aggregation does
not produce an empty series; neither series evaluates to `Except.ok []`. -/
theorem c3_counterexample :
    dailySeries ([] : List StarEvent) ≠ Except.ok [] ∧
    quarterlySeries ([] : List StarEvent) ≠ Except.ok [] :=
  And.intro (fun h => nomatch h) (fun h => nomatch h)

/-- Claim C3 as amended: for the empty event list the aggregation step raises
`KeyError` — `pd.DataFrame([])` has no columns, so the `starred_at` column
access in `main` fails before any grouping happens and no series is
produced. -/
theorem c3_empty_input_raises :
    dailySeries ([] : List StarEvent) = Except.error "KeyError: starred_at" ∧
    quarterlySeries ([] : List StarEvent) = Except.error "KeyError: starred_at" :=
  ⟨rfl, rfl⟩

/-- Claim C4: the end-to-end scenario. For input timestamps 2023-01-01,
2023-01-01 and 2023-04-05, the daily series is exactly
`[(2023-01-01, 2, 2), (2023-04-05, 1, 3)]` and the quarterly series is
exactly `[("2023-Q1", 2, 2), ("2023-Q2", 1, 3)]`, in that order. -/
theorem c4_end_to_end_scenario :
    dailySeries exStars =
      Except.ok [(⟨2023, 1, 1, 0, 0, 0⟩, 2, 2), (⟨2023, 4, 5, 0, 0, 0⟩, 1, 3)] ∧
    quarterlySeries exStars =
      Except.ok [("2023-Q1", 2, 2), ("2023-Q2", 1, 3)] :=
  ⟨rfl, rfl⟩

/-- Counterexample to claim C5: extraction does not select the link whose
relation is `"last"`. On a header holding the same two links as the docstring
example but with the `rel="last"` link (page 231) first and the `rel="next"`
link (page 2) last, it returns 2, not the 231 of the `rel="last"` link. -/
theorem c5_counterexample :
    extract_last_page_num swappedLinkStr = Except.ok 2 ∧
    extract_last_page_num swappedLinkStr ≠ Except.ok 231 :=
  ⟨rfl, fun h => absurd (Except.ok.inj h) (by decide)⟩

/-- Claim C5 as amended: extraction returns the integer following `page=` in
the positionally last `?page=N>` occurrence of the string. For the docstring
example header, where the `rel="last"` link does appear last, it yields 231;
for a string containing no `page=` parameter it raises `IndexError`. -/
theorem c5_extraction_behavior :
    extract_last_page_num docLinkStr = Except.ok 231 ∧
    extract_last_page_num noPageLinkStr =
      Except.error "list index out of range" :=
  ⟨rfl, rfl⟩

/-- Claim C6: the aggregation is deterministic and idempotent — it is a pure
function of the input event list, so running it twice on the same list gives
identical results (both series, including the error outcome). -/
theorem c6_aggregation_deterministic :
    ∀ stars : List StarEvent,
      dailySeries stars = dailySeries stars ∧
      quarterlySeries stars = quarterlySeries stars :=
  fun _ => ⟨rfl, rfl⟩

/-- Claim C7: the chart-save step rejects every path not ending in `.html`
with a `ValueError` before any rendering work, writing no file, and raises no
validation error for paths ending in `.html` (there it writes exactly the
requested file). -/
theorem c7_save_path_validation :
    (∀ path : String, strEndsWith path ".html" = false →
      save_plotly_figure path =
        Except.error "ValueError: path must be an HTML file") ∧
    (∀ path : String, strEndsWith path ".html" = true →
      save_plotly_figure path = Except.ok [path]) := by
  constructor
  · intro path h
    simp [save_plotly_figure, h]
  · intro path h
    simp [save_plotly_figure, h]

/-- Witness for C7: a `.csv` path is rejected with the `ValueError` and
produces nothing; an `.html` path passes validation and is written. -/
theorem c7_witness :
    (strEndsWith "stars.csv" ".html" = false ∧
      save_plotly_figure "stars.csv" =
        Except.error "ValueError: path must be an HTML file") ∧
    (strEndsWith "stars.html" ".html" = true ∧
      save_plotly_figure "stars.html" = Except.ok ["stars.html"]) :=
  ⟨⟨by decide, c7_save_path_validation.1 "stars.csv" (by decide)⟩,
    ⟨by decide, c7_save_path_validation.2 "stars.html" (by decide)⟩⟩

/-- Claim C8: the pagination loop visits exactly the page indices 1 through
`last_page_num` inclusive — every visited index satisfies the bounds and no
index is visited twice — in strictly increasing order, and the result is the
concatenation of the pages' records in that order. -/
theorem c8_pagination_loop (last_page_num : Nat) (pages : Nat → List StarEvent) :
    (∀ p : Nat, p ∈ pageSequence last_page_num ↔ 1 ≤ p ∧ p ≤ last_page_num) ∧
    List.Pairwise (· < ·) (pageSequence last_page_num) ∧
    fetch_stars_loop pages last_page_num =
      ((pageSequence last_page_num).map pages).flatten := by
  refine ⟨fun p => ?_, List.pairwise_lt_range' 1 last_page_num, ?_⟩
  · unfold pageSequence
    rw [List.mem_range'_1]
    omega
  · unfold fetch_stars_loop
    rw [foldl_append_flatten]
    simp

/-- Claim C9: per-granularity output filenames insert the suffix between the
base and the extension with an underscore: in general
`add_suffix path suffix = base ++ "_" ++ suffix ++ ext` for
`(base, ext) = splitext path`, and concretely the run writes the
`stars_daily.csv` and `stars_quarterly.csv` layout from the base path that
`main` derives from the figure path. -/
theorem c9_add_suffix_layout :
    (∀ path suffix : String,
      add_suffix path suffix =
        (splitext path).1 ++ "_" ++ suffix ++ (splitext path).2) ∧
    replace_extension "stars.html" ".csv" = Except.ok "stars.csv" ∧
    add_suffix "stars.csv" "daily" = "stars_daily.csv" ∧
    add_suffix "stars.csv" "quarterly" = "stars_quarterly.csv" :=
  ⟨fun _ _ => rfl, rfl, rfl, rfl⟩

/-- Claim C10 (implicit behavior): `extract_last_page_num` returns the
integer of the positionally last `?page=N>` occurrence regardless of the
`rel=` labels. On the docstring header (the `rel="last"` link positioned
last) it returns that link's 231, yet on the same two links in the opposite
order it returns the `rel="next"` link's 2; in general the result is exactly
the last element of the left-to-right match list. -/
theorem c10_positionally_last_match :
    extract_last_page_num docLinkStr = Except.ok 231 ∧
    extract_last_page_num swappedLinkStr = Except.ok 2 ∧
    ∀ link_str : String,
      extract_last_page_num link_str =
        match (findPageNums link_str.data).getLast? with
        | some n => Except.ok n
        | none => Except.error "list index out of range" :=
  ⟨rfl, rfl, fun _ => rfl⟩
